import Mathlib

/-!
Shallow embedding of the acquisition / normalization / filter pipeline of the
naver-realestate-bot repository.

Two drafts of the engine are embedded, mirroring the source files:
* namespace Ts   : src/src/scraper.ts        (named-area mode, primary JSON call
                   with rendered-page fallback)
* namespace P3   : src/unnamed/part_003      (bounding-box cluster mode, size and
                   price filters at fetch time)

Modelling conventions (stated once, used throughout):
* JS optional string fields are Lean Strings with "" standing for both the
  empty string and an absent (undefined) field; the two are indistinguishable
  through the falsy checks the source applies to them.
* JS optional numeric options are Option Nat / Option DecNum; JS truthiness
  of a number (0 and undefined are falsy) is truthyN / truthyD.
* Math.random is modelled as an explicit supply rng : Nat -> String together
  with a counter that is advanced exactly where the source evaluates
  Math.random (short-circuit of the or-operator included).
* parseFloat is modelled as Option DecNum with none playing the role of NaN
  (every ordered comparison against none is false, as in JS); exponent
  notation and Infinity are not modelled, no call site of the source
  produces them.
* Network, page rendering and exceptions: each upstream interaction is an
  explicit input; a thrown request is a dedicated constructor where the throw
  is observable, and is folded into the empty-result outcome where the source
  catches it and continues with an empty list.
-/

namespace NaverBot

/-- JS string or-operator on optional string fields: a || b with "" falsy. -/
def jsOr (a b : String) : String := if a = "" then b else a

/-- JS truthiness of an optional number: undefined and 0 are falsy. -/
def truthyN : Option Nat → Bool
  | none => false
  | some n => n != 0

/-- JS x || d on an optional number: the default applies when x is undefined or 0. -/
def orDefaultN (o : Option Nat) (d : Nat) : Nat :=
  match o with
  | none => d
  | some n => if n = 0 then d else n

/-- Value of a run of ASCII digit characters, as parseInt reads it. -/
def digitsVal (cs : List Char) : Nat :=
  cs.foldl (fun n c => n * 10 + (c.toNat - 48)) 0

/-- First maximal run of decimal digits in a string, as matched by the
regex group in p.floor.match; none when the string has no digit. -/
def firstDigitRun (s : String) : Option Nat :=
  let rest := s.toList.dropWhile (fun c => !c.isDigit)
  let run := rest.takeWhile Char.isDigit
  if run.isEmpty then none else some (digitsVal run)

/-- Boolean prefix test on character lists. -/
def isPrefixL : List Char → List Char → Bool
  | [], _ => true
  | _ :: _, [] => false
  | c :: cs, d :: ds => c == d && isPrefixL cs ds

/-- Boolean infix test on character lists. -/
def containsSubL (pat : List Char) : List Char → Bool
  | [] => pat.isEmpty
  | c :: rest => isPrefixL pat (c :: rest) || containsSubL pat rest

/-- JS String.includes on strings. -/
def containsSub (s pat : String) : Bool := containsSubL pat.toList s.toList

/-- One pass of replace of every whitespace run by a single space,
tracking whether the previous character was whitespace. -/
def collapseWsAux : Bool → List Char → List Char
  | _, [] => []
  | prevWs, c :: rest =>
    if c.isWhitespace then
      if prevWs then collapseWsAux true rest
      else ' ' :: collapseWsAux true rest
    else c :: collapseWsAux false rest

/-- JS String.trim on character lists. -/
def trimL (cs : List Char) : List Char :=
  ((cs.dropWhile (·.isWhitespace)).reverse.dropWhile (·.isWhitespace)).reverse

/-- Array filter of Boolean-falsy entries followed by join, as used for the
description field. -/
def joinSep (sep : String) (xs : List String) : String :=
  String.intercalate sep (xs.filter (fun x => x ≠ ""))

/-- Exact decimal number num / 10 ^ scale, the value space of the finite JS
numbers this program manipulates (decimal literals and their comparisons). -/
structure DecNum where
  num : Int
  scale : Nat
deriving DecidableEq, Repr

/-- A natural number as a DecNum. -/
def DecNum.ofN (n : Nat) : DecNum := ⟨n, 0⟩

/-- Strict less-than of exact decimals by cross multiplication. -/
def DecNum.blt (a b : DecNum) : Bool :=
  decide (a.num * (10 : Int) ^ b.scale < b.num * (10 : Int) ^ a.scale)

/-- JS truthiness of an optional non-NaN number: undefined and 0 are falsy. -/
def truthyD : Option DecNum → Bool
  | none => false
  | some q => q.num != 0

/-- parseFloat of JS restricted to plain decimal literals: optional leading
whitespace, optional sign, digits with an optional fraction; none plays the
role of NaN. Exponent notation and Infinity are not modelled, no call site of
the source produces them. -/
def parseFloatJs (s : String) : Option DecNum :=
  let cs := s.toList.dropWhile (·.isWhitespace)
  let signed : Bool × List Char :=
    match cs with
    | '-' :: rest => (true, rest)
    | '+' :: rest => (false, rest)
    | _ => (false, cs)
  let intPart := signed.2.takeWhile Char.isDigit
  let afterInt := signed.2.dropWhile Char.isDigit
  let fracPart :=
    match afterInt with
    | '.' :: rest => rest.takeWhile Char.isDigit
    | _ => []
  if intPart.isEmpty && fracPart.isEmpty then none
  else
    let m : Int := digitsVal (intPart ++ fracPart)
    some ⟨if signed.1 then -m else m, fracPart.length⟩

/-- JS strict less-than with a possibly-NaN left operand: NaN compares false. -/
def nanLt (a : Option DecNum) (b : DecNum) : Bool :=
  match a with
  | none => false
  | some v => v.blt b

/-- JS strict greater-than with a possibly-NaN left operand: NaN compares false. -/
def nanGt (a : Option DecNum) (b : DecNum) : Bool :=
  match a with
  | none => false
  | some v => b.blt v

/-- Canonical output record, interface Property of the source. -/
structure Property where
  id : String
  title : String
  price : String
  size : String
  floor : String
  address : String
  description : String
  link : String
deriving DecidableEq, Repr

/-- Trade type option of the source. -/
inductive TradeType where
  | rent
  | jeonse
  | all
deriving DecidableEq, Repr

/-- Floor filter predicate applied in search of every draft: empty floor text
passes; a first numeric token n passes iff n is at least minFloor or 2;
otherwise basement and first-floor markers reject and anything else passes. -/
def floorPass (minFloor : Option Nat) (p : Property) : Bool :=
  if p.floor = "" then true
  else
    match firstDigitRun p.floor with
    | some n => decide (n ≥ orDefaultN minFloor 2)
    | none =>
      if containsSub p.floor "지하" || containsSub p.floor "반지" || p.floor = "1층" then false
      else true

namespace Ts

/-- SearchOptions of src/src/scraper.ts; minSize and maxSize are declared by
the interface but never read by this draft of search. -/
structure SearchOptions where
  areas : List String
  minSize : Option DecNum := none
  maxSize : Option DecNum := none
  minFloor : Option Nat := none
  tradeType : Option TradeType := none
  limit : Option Nat := none

/-- Static AREA_CODES table of src/src/scraper.ts. -/
def AREA_CODES : String → Option String := fun a =>
  if a = "용산구" then some "1117000000"
  else if a = "마포구" then some "1144000000"
  else if a = "성동구" then some "1120000000"
  else if a = "광진구" then some "1121500000"
  else if a = "영등포구" then some "1156000000"
  else if a = "강남구" then some "1168000000"
  else if a = "서초구" then some "1165000000"
  else none

/-- Structured raw record of the primary strategy, with the fields the
normalizer reads; "" stands for an absent field. -/
structure RawItem where
  atclNo : String := ""
  atclNm : String := ""
  prcInfo : String := ""
  hanPrc : String := ""
  spc2 : String := ""
  flrInfo : String := ""
  atclFetrDesc : String := ""
  rletTpNm : String := ""
  tradTpNm : String := ""
deriving DecidableEq, Repr

/-- Fallback DOM fragment after selector text extraction: the three texts the
source reads from one matched element, defaults from the catch handlers
already applied. -/
structure DomItem where
  title : String := ""
  price : String := ""
  info : String := ""
deriving DecidableEq, Repr

/-- Outcome of the parse of the primary response text. -/
inductive Payload where
  | unparseable
  | noBody
  | body (items : List RawItem)
deriving DecidableEq, Repr

/-- Outcome of the primary structured-data call of searchAreaMobile:
thrown models page.goto rejecting (timeout or network error), nullResp a
falsy response object, payload a response text handed to JSON.parse. -/
inductive PrimaryResp where
  | thrown
  | nullResp
  | payload (p : Payload)
deriving DecidableEq, Repr

/-- Upstream data one area can yield: the primary outcome and the DOM items
the fallback page would expose. -/
structure AreaData where
  resp : PrimaryResp := .thrown
  dom : List DomItem := []

/-- formatPrice of src/src/scraper.ts: empty in, empty out; otherwise every
whitespace run collapses to one space and the ends are trimmed. -/
def formatPrice (price : String) : String :=
  if price = "" then ""
  else String.mk (trimL (collapseWsAux false price.toList))

/-- Property construction of searchAreaMobile for one structured item; rid is
the Math.random token drawn when atclNo is falsy. -/
def toProperty (rid : String) (item : RawItem) : Property :=
  { id := jsOr item.atclNo rid
    title := jsOr item.atclNm "매물"
    price := formatPrice (jsOr item.prcInfo (jsOr item.hanPrc ""))
    size := if item.spc2 ≠ "" then item.spc2 ++ "㎡" else ""
    floor := jsOr item.flrInfo ""
    address := jsOr item.atclFetrDesc ""
    description := joinSep " / " [item.rletTpNm, item.tradTpNm]
    link := "https://m.land.naver.com/article/info/" ++ item.atclNo }

/-- Normalization loop over data.body: one Property per item, a random token
consumed exactly when atclNo is falsy. -/
def normItems (rng : Nat → String) : Nat → List RawItem → List Property × Nat
  | k, [] => ([], k)
  | k, it :: rest =>
    let pk : Property × Nat :=
      if it.atclNo = "" then (toProperty (rng k) it, k + 1) else (toProperty "" it, k)
    let rec2 := normItems rng pk.2 rest
    (pk.1 :: rec2.1, rec2.2)

/-- Records the primary strategy yields for one response outcome. -/
def primaryRecords (rng : Nat → String) (k : Nat) : PrimaryResp → List Property × Nat
  | .thrown => ([], k)
  | .nullResp => ([], k)
  | .payload .unparseable => ([], k)
  | .payload .noBody => ([], k)
  | .payload (.body items) => normItems rng k items

/-- Fallback extraction loop over the first 30 DOM items: an element is pushed
when its title or price text is truthy, with a fresh random id. -/
def domRecords (rng : Nat → String) : Nat → List DomItem → List Property × Nat
  | k, [] => ([], k)
  | k, d :: rest =>
    if d.title ≠ "" || d.price ≠ "" then
      let p : Property :=
        { id := rng k, title := d.title, price := d.price, size := "", floor := ""
          address := "", description := d.info, link := "" }
      let rec2 := domRecords rng (k + 1) rest
      (p :: rec2.1, rec2.2)
    else domRecords rng k rest

/-- Whether control reaches the fallback rendered-page branch of
searchAreaMobile: an unknown area returns before the primary call, a thrown
primary call jumps to the catch past the branch, and otherwise the branch
runs exactly when the primary strategy pushed no record. -/
def fallbackAttempted (area : String) (resp : PrimaryResp) : Bool :=
  match AREA_CODES area, resp with
  | none, _ => false
  | some _, .thrown => false
  | some _, .nullResp => true
  | some _, .payload .unparseable => true
  | some _, .payload .noBody => true
  | some _, .payload (.body items) => items.isEmpty

/-- searchAreaMobile of src/src/scraper.ts over the modelled upstream data of
one area, threading the random-token counter. -/
def searchAreaMobile (rng : Nat → String) (k : Nat) (area : String) (d : AreaData) :
    List Property × Nat :=
  match AREA_CODES area with
  | none => ([], k)
  | some _ =>
    match d.resp with
    | .thrown => ([], k)
    | resp =>
      let prim := primaryRecords rng k resp
      if prim.1.isEmpty then domRecords rng prim.2 (d.dom.take 30)
      else prim

/-- Area loop of search: accumulate per-area results and break once the
accumulated count reaches a truthy limit. -/
def searchLoop (rng : Nat → String) (up : String → AreaData) (limit : Option Nat) :
    List String → List Property → Nat → List Property
  | [], acc, _ => acc
  | a :: rest, acc, k =>
    let r := searchAreaMobile rng k a (up a)
    let acc2 := acc ++ r.1
    if truthyN limit && decide (acc2.length ≥ limit.getD 0) then acc2
    else searchLoop rng up limit rest acc2 r.2

/-- Raw accumulation of search before the floor filter and the final slice. -/
def accum (rng : Nat → String) (opts : SearchOptions) (up : String → AreaData) :
    List Property :=
  searchLoop rng up opts.limit opts.areas [] 0

/-- search of src/src/scraper.ts: area loop, floor filter, slice to the limit
or its default 20. -/
def search (rng : Nat → String) (opts : SearchOptions) (up : String → AreaData) :
    List Property :=
  ((accum rng opts up).filter (floorPass opts.minFloor)).take (orDefaultN opts.limit 20)

end Ts

namespace P3

/-- SearchOptions of src/unnamed/part_003 (cluster mode: no areas field,
deposit and rent caps in units of ten thousand). -/
structure SearchOptions where
  minSize : Option DecNum := none
  maxSize : Option DecNum := none
  minFloor : Option Nat := none
  tradeType : Option TradeType := none
  limit : Option Nat := none
  maxDeposit : Option Nat := none
  maxRent : Option Nat := none

/-- Structured raw record of the cluster article list, with the fields this
draft reads; "" stands for an absent string field, and prc and rentPrc are
the numeric price components with 0 for an absent one, exactly how the
source collapses them through item.prc || 0. -/
structure Item where
  atclNo : String := ""
  atclNm : String := ""
  spc2 : String := ""
  hanPrc : String := ""
  prcInfo : String := ""
  flrInfo : String := ""
  atclFetrDesc : String := ""
  rletTpNm : String := ""
  tradTpNm : String := ""
  direction : String := ""
  prc : Nat := 0
  rentPrc : Nat := 0
deriving DecidableEq, Repr

/-- One density cluster of the aggregate query. -/
structure Cluster where
  lgeo : String
  count : Nat
deriving DecidableEq, Repr

/-- Modelled upstream: the cluster list a successful aggregate query returns
(an empty list for every failure outcome the source folds into no clusters),
and per lgeo the parsed body array of the article query, none for every
failure or non-success outcome. -/
structure Upstream where
  clusters : List Cluster := []
  body : String → Option (List Item) := fun _ => none

/-- Stable descending insertion by count: the JS stable sort with comparator
b.count - a.count keeps earlier elements first among equal counts. -/
def insertDesc (c : Cluster) : List Cluster → List Cluster
  | [] => [c]
  | d :: ds => if c.count ≥ d.count then c :: d :: ds else d :: insertDesc c ds

/-- Stable sort of the cluster list, descending by count. -/
def sortCountDesc : List Cluster → List Cluster
  | [] => []
  | c :: cs => insertDesc c (sortCountDesc cs)

/-- formatPrice of src/unnamed/part_003: deposit and rent render as
deposit/rent, a single present component renders alone, and with neither the
combined prcInfo string or the empty string is returned. -/
def formatPrice (it : Item) : String :=
  if it.rentPrc ≠ 0 then
    if it.hanPrc ≠ "" then it.hanPrc ++ "/" ++ toString it.rentPrc
    else jsOr (toString it.rentPrc) (jsOr it.prcInfo "")
  else jsOr it.hanPrc (jsOr it.prcInfo "")

/-- Property construction of fetchArticlesFromCluster for one item; rid is the
Math.random token drawn when atclNo is falsy. -/
def toProperty (rid : String) (it : Item) : Property :=
  { id := jsOr it.atclNo rid
    title := jsOr it.atclNm "매물"
    price := formatPrice it
    size := if it.spc2 ≠ "" then it.spc2 ++ "㎡" else ""
    floor := jsOr it.flrInfo ""
    address := jsOr it.atclFetrDesc ""
    description := joinSep " · " [it.rletTpNm, it.tradTpNm, it.direction]
    link := "https://m.land.naver.com/article/info/" ++ it.atclNo }

/-- Size filter of fetchArticlesFromCluster: the size is parseFloat of spc2
with an absent spc2 replaced by the literal "0", and a truthy bound rejects
when the (possibly NaN) size compares strictly outside it. -/
def sizeAccept (minSize maxSize : Option DecNum) (spc2 : String) : Bool :=
  let size := parseFloatJs (jsOr spc2 "0")
  if truthyD minSize && nanLt size (minSize.getD (DecNum.ofN 0)) then false
  else if truthyD maxSize && nanGt size (maxSize.getD (DecNum.ofN 0)) then false
  else true

/-- Price filter of fetchArticlesFromCluster on the numeric deposit and rent
components. -/
def priceAccept (maxDeposit maxRent : Option Nat) (it : Item) : Bool :=
  if truthyN maxDeposit && decide (it.prc > maxDeposit.getD 0) then false
  else if truthyN maxRent && decide (it.rentPrc > maxRent.getD 0) then false
  else true

/-- Item loop of fetchArticlesFromCluster: size filter, price filter, then
normalization, consuming a random token exactly when atclNo is falsy. -/
def articlesGo (rng : Nat → String) (opts : SearchOptions) :
    Nat → List Item → List Property × Nat
  | k, [] => ([], k)
  | k, it :: rest =>
    if sizeAccept opts.minSize opts.maxSize it.spc2 && priceAccept opts.maxDeposit opts.maxRent it then
      let pk : Property × Nat :=
        if it.atclNo = "" then (toProperty (rng k) it, k + 1) else (toProperty "" it, k)
      let rec2 := articlesGo rng opts pk.2 rest
      (pk.1 :: rec2.1, rec2.2)
    else articlesGo rng opts k rest

/-- fetchArticlesFromCluster of src/unnamed/part_003 over the modelled body
of one lgeo. -/
def fetchArticles (rng : Nat → String) (opts : SearchOptions) (k : Nat) :
    Option (List Item) → List Property × Nat
  | none => ([], k)
  | some items => articlesGo rng opts k items

/-- Cluster loop of search: accumulate per-cluster results and break once the
accumulated count reaches a truthy limit. -/
def clusterLoop (rng : Nat → String) (opts : SearchOptions) (up : Upstream) :
    List Cluster → List Property → Nat → List Property
  | [], acc, _ => acc
  | c :: rest, acc, k =>
    let r := fetchArticles rng opts k (up.body c.lgeo)
    let acc2 := acc ++ r.1
    if truthyN opts.limit && decide (acc2.length ≥ opts.limit.getD 0) then acc2
    else clusterLoop rng opts up rest acc2 r.2

/-- Raw accumulation of search before the floor filter and the final slice:
the clusters sorted descending by count, capped to the top 5. -/
def accum (rng : Nat → String) (opts : SearchOptions) (up : Upstream) : List Property :=
  clusterLoop rng opts up ((sortCountDesc up.clusters).take 5) [] 0

/-- search of src/unnamed/part_003: cluster discovery, per-cluster fetch with
size and price filters, floor filter, slice to the limit or its default 20. -/
def search (rng : Nat → String) (opts : SearchOptions) (up : Upstream) : List Property :=
  ((accum rng opts up).filter (floorPass opts.minFloor)).take (orDefaultN opts.limit 20)

end P3

/-! Concrete fixtures used by counterexamples and witnesses. -/

/-- A fixed random-token supply. -/
def rngR : Nat → String := fun _ => "r"

/-- A structured item with a stable id on the third floor. -/
def exDup : Ts.RawItem := { atclNo := "12345", flrInfo := "3층" }

/-- Upstream where two known areas both return the same listing. -/
def exDupUp : String → Ts.AreaData := fun a =>
  if a = "용산구" || a = "마포구" then { resp := .payload (.body [exDup]), dom := [] }
  else { resp := .thrown, dom := [] }

/-- Options over the two areas of exDupUp, everything else defaulted. -/
def exDupOpts : Ts.SearchOptions := { areas := ["용산구", "마포구"] }

/-- A structured item whose floor text carries both a basement marker and the
numeral 3. -/
def exBsmt3 : Ts.RawItem := { atclNo := "9", flrInfo := "지하3층" }

/-- Upstream where one known area returns the basement-numeral listing. -/
def exBsmtUp : String → Ts.AreaData := fun a =>
  if a = "용산구" then { resp := .payload (.body [exBsmt3]), dom := [] }
  else { resp := .thrown, dom := [] }

/-- Options with an explicit minFloor of 2 over the single area of exBsmtUp. -/
def exBsmtOpts : Ts.SearchOptions := { areas := ["용산구"], minFloor := some 2 }

/-- A filter-eligible structured item on the third floor with the given id. -/
def exElig (n : String) : Ts.RawItem := { atclNo := n, flrInfo := "3층" }

/-- A filter-ineligible structured item whose floor text is the digit-free
basement marker. -/
def exIneg (n : String) : Ts.RawItem := { atclNo := n, flrInfo := "지하" }

/-- Upstream for the limit experiment: the first area yields 6 raw records of
which 2 are eligible, the second 6 eligible records, 8 eligible in total. -/
def exLimUp : String → Ts.AreaData := fun a =>
  if a = "용산구" then
    { resp := .payload (.body
        [exElig "a1", exElig "a2", exIneg "a3", exIneg "a4", exIneg "a5", exIneg "a6"]),
      dom := [] }
  else if a = "마포구" then
    { resp := .payload (.body
        [exElig "b1", exElig "b2", exElig "b3", exElig "b4", exElig "b5", exElig "b6"]),
      dom := [] }
  else { resp := .thrown, dom := [] }

/-- Options with limit 5 over the two areas of exLimUp. -/
def exLimOpts : Ts.SearchOptions := { areas := ["용산구", "마포구"], limit := some 5 }

/-- A structured item with no field supplied at all. -/
def exBlank : Ts.RawItem := {}

/-- An area item with an empty floor text and a stable id. -/
def exNoFloor : Ts.RawItem := { atclNo := "77" }

/-- Upstream where one known area returns the floorless listing. -/
def exNoFloorUp : String → Ts.AreaData := fun a =>
  if a = "용산구" then { resp := .payload (.body [exNoFloor]), dom := [] }
  else { resp := .thrown, dom := [] }

/-- Options over the single area of exNoFloorUp. -/
def exNoFloorOpts : Ts.SearchOptions := { areas := ["용산구"] }

/-- The Property record the floorless listing normalizes to. -/
def exNoFloorProp : Property := Ts.toProperty "" exNoFloor

/-- A cluster item lacking the upstream id, otherwise eligible. -/
def exNoId : P3.Item := { flrInfo := "3층" }

/-- Cluster upstream with one cluster whose body is the id-less item. -/
def exNoIdUp : P3.Upstream :=
  { clusters := [⟨"g", 1⟩], body := fun l => if l = "g" then some [exNoId] else none }

/-- A cluster item with a stable id, otherwise eligible. -/
def exWithId : P3.Item := { atclNo := "X", flrInfo := "3층" }

/-- Cluster upstream with one cluster whose body is the stable-id item. -/
def exWithIdUp : P3.Upstream :=
  { clusters := [⟨"g", 1⟩], body := fun l => if l = "g" then some [exWithId] else none }

/-- A second fixed random-token supply, distinct from rngR on index 0. -/
def rngS : Nat → String := fun _ => "s"

/-- Item with both price components, deposit 1억 and rent 50. -/
def exPriceBoth : P3.Item := { hanPrc := "1억", rentPrc := 50 }

/-- Item with the deposit component only. -/
def exPriceDep : P3.Item := { hanPrc := "1억" }

/-- Item with no price information at all. -/
def exPriceNone : P3.Item := {}

/-! Helper lemmas shared by the claim theorems. -/

/-- The loop break test is false on an empty accumulation. -/
theorem breakNilFalse (limit : Option Nat) :
    (truthyN limit && decide ((0 : Nat) ≥ limit.getD 0)) = false := by
  cases limit with
  | none => rfl
  | some n => cases n <;> simp [truthyN]

/-- The floor filter holds on every member of a search result. -/
theorem floorPass_of_mem_search (rng : Nat → String) (opts : Ts.SearchOptions)
    (up : String → Ts.AreaData) (p : Property) (hmem : p ∈ Ts.search rng opts up) :
    floorPass opts.minFloor p = true := by
  have h1 : p ∈ (Ts.accum rng opts up).filter (floorPass opts.minFloor) :=
    List.take_subset _ _ hmem
  exact (List.mem_filter.mp h1).2

/-- The normalization loop returns one record per body item. -/
theorem normItems_nil_iff (rng : Nat → String) (k : Nat) (items : List Ts.RawItem) :
    (Ts.normItems rng k items).1 = [] ↔ items = [] := by
  cases items <;> simp [Ts.normItems]

/-- C1, counterexample: when two areas return the same listing, the result of
search carries the id 12345 twice, so an id can repeat within one result
sequence and no record is dropped for an already-seen id. -/
theorem C1_dedup_counterexample :
    (Ts.search rngR exDupOpts exDupUp).map Property.id = ["12345", "12345"] ∧
    ¬ ((Ts.search rngR exDupOpts exDupUp).map Property.id).Nodup := by
  exact ⟨by decide, by decide⟩

/-- C1, amended: search applies no deduplication: a record whose id already
appeared earlier is retained, and whenever every accumulated record passes the
floor filter and the accumulation fits under the cap, the result is the whole
accumulation, duplicate ids included. -/
theorem C1_no_dedup (rng : Nat → String) (opts : Ts.SearchOptions)
    (up : String → Ts.AreaData)
    (hpass : ∀ p ∈ Ts.accum rng opts up, floorPass opts.minFloor p = true)
    (hlen : (Ts.accum rng opts up).length ≤ orDefaultN opts.limit 20) :
    Ts.search rng opts up = Ts.accum rng opts up := by
  unfold Ts.search
  rw [List.filter_eq_self.mpr hpass, List.take_of_length_le hlen]

/-- C1, witness: on the duplicate-id upstream the amended theorem applies and
the result is exactly the two-record accumulation. -/
theorem C1_no_dedup_witness :
    (Ts.accum rngR exDupOpts exDupUp).length ≤ orDefaultN exDupOpts.limit 20 ∧
    Ts.search rngR exDupOpts exDupUp = Ts.accum rngR exDupOpts exDupUp :=
  ⟨by decide, C1_no_dedup rngR exDupOpts exDupUp (by decide) (by decide)⟩

/-- C2, counterexample: the record whose floor text is 지하3층 is included in
the search result under minFloor 2, because the numeric token 3 is parsed
first and the basement marker is never consulted. -/
theorem C2_basement_counterexample :
    (Ts.search rngR exBsmtOpts exBsmtUp).map Property.floor = ["지하3층"] := by
  decide

/-- C2, amended: a basement or semi-basement marker excludes a record only
when its floor text contains no digit; every result member without a digit in
its floor text is free of both markers, and every result member with a first
numeric token n satisfies n at least minFloor or its default 2. -/
theorem C2_basement_only_digitless (rng : Nat → String) (opts : Ts.SearchOptions)
    (up : String → Ts.AreaData) (p : Property) (hmem : p ∈ Ts.search rng opts up) :
    (firstDigitRun p.floor = none →
      containsSub p.floor "지하" = false ∧ containsSub p.floor "반지" = false) ∧
    (∀ n, firstDigitRun p.floor = some n → p.floor ≠ "" →
      orDefaultN opts.minFloor 2 ≤ n) := by
  have hp := floorPass_of_mem_search rng opts up p hmem
  constructor
  · intro hnone
    by_cases hfl : p.floor = ""
    · rw [hfl]
      exact ⟨by decide, by decide⟩
    · rw [floorPass, if_neg hfl, hnone] at hp
      by_cases h1 : containsSub p.floor "지하" = true
      · rw [h1] at hp
        simp at hp
      · by_cases h2 : containsSub p.floor "반지" = true
        · rw [h2] at hp
          simp at hp
        · exact ⟨Bool.eq_false_iff.mpr h1, Bool.eq_false_iff.mpr h2⟩
  · intro n hsome hfl
    rw [floorPass, if_neg hfl, hsome] at hp
    exact of_decide_eq_true hp

/-- C2, witness: the floorless record is a member of its search result and the
amended theorem yields that its floor text carries no basement marker. -/
theorem C2_basement_only_digitless_witness :
    containsSub exNoFloorProp.floor "지하" = false ∧
    containsSub exNoFloorProp.floor "반지" = false :=
  (C2_basement_only_digitless rngR exNoFloorOpts exNoFloorUp exNoFloorProp
    (by decide)).1 rfl

/-- C3, counterexample: with limit 5 and 8 filter-eligible raw records spread
over the two regions, search returns only 2 records: the early break fires on
the pre-filter count of the first region and the floor filter then removes 4
of its records. -/
theorem C3_exact_limit_counterexample :
    (Ts.search rngR exLimOpts exLimUp).length = 2 ∧
    ((Ts.accum rngR { exLimOpts with limit := none } exLimUp).filter
      (floorPass exLimOpts.minFloor)).length = 8 ∧
    exLimOpts.limit = some 5 := by
  exact ⟨by decide, by decide, by decide⟩

/-- C3, amended: the result length never exceeds a truthy limit n, and when
additionally every accumulated record passes the floor filter and at least n
records were accumulated before the early exit, exactly n records are
returned, as the order-preserving prefix of the accumulation. -/
theorem C3_limit_cap (rng : Nat → String) (opts : Ts.SearchOptions)
    (up : String → Ts.AreaData) (n : Nat) (hl : opts.limit = some n) (hn : n ≠ 0) :
    (Ts.search rng opts up).length ≤ n ∧
    ((∀ p ∈ Ts.accum rng opts up, floorPass opts.minFloor p = true) →
      n ≤ (Ts.accum rng opts up).length →
      Ts.search rng opts up = (Ts.accum rng opts up).take n ∧
      (Ts.search rng opts up).length = n) := by
  have hcap : orDefaultN opts.limit 20 = n := by
    rw [hl]
    simp [orDefaultN, hn]
  constructor
  · unfold Ts.search
    rw [hcap]
    exact List.length_take_le n _
  · intro hpass hge
    unfold Ts.search
    rw [hcap, List.filter_eq_self.mpr hpass]
    refine ⟨rfl, ?_⟩
    rw [List.length_take]
    omega

/-- C3, witness: with limit 5 over a single region yielding six eligible
records, the amended theorem gives a result of exactly 5 records, the prefix
of the accumulation. -/
theorem C3_limit_cap_witness :
    (Ts.search rngR { areas := ["마포구"], limit := some 5 } exLimUp).length ≤ 5 ∧
    Ts.search rngR { areas := ["마포구"], limit := some 5 } exLimUp =
      (Ts.accum rngR { areas := ["마포구"], limit := some 5 } exLimUp).take 5 ∧
    (Ts.search rngR { areas := ["마포구"], limit := some 5 } exLimUp).length = 5 := by
  have h := C3_limit_cap rngR { areas := ["마포구"], limit := some 5 } exLimUp 5 rfl
    (by decide)
  have h2 := h.2 (by decide) (by decide)
  exact ⟨h.1, h2.1, h2.2⟩

/-- C4, counterexample: a thrown primary request yields zero raw records, yet
the fallback rendered-page branch is not reached for the region (control jumps
to the catch handler past it), and the region concludes zero results even
though the fallback DOM held an extractable listing. -/
theorem C4_thrown_counterexample :
    (Ts.primaryRecords rngR 0 Ts.PrimaryResp.thrown).1 = [] ∧
    Ts.fallbackAttempted "용산구" Ts.PrimaryResp.thrown = false ∧
    (Ts.searchAreaMobile rngR 0 "용산구"
      { resp := .thrown, dom := [{ title := "원룸", price := "1억" }] }).1 = [] := by
  exact ⟨rfl, by decide, by decide⟩

/-- C4, amended: for a known area, whenever the primary structured-data call
completes without throwing and yields zero records (null response, unparseable
payload, missing or empty body array), the fallback rendered-page branch is
attempted before the region concludes zero results; a thrown primary request
skips the fallback. -/
theorem C4_fallback_when_zero (area : String) (resp : Ts.PrimaryResp)
    (hknown : (Ts.AREA_CODES area).isSome = true)
    (hthrow : resp ≠ Ts.PrimaryResp.thrown)
    (hzero : (Ts.primaryRecords rngR 0 resp).1 = []) :
    Ts.fallbackAttempted area resp = true := by
  obtain ⟨c, hc⟩ := Option.isSome_iff_exists.mp hknown
  cases resp with
  | thrown => exact absurd rfl hthrow
  | nullResp => simp [Ts.fallbackAttempted, hc]
  | payload p =>
    cases p with
    | unparseable => simp [Ts.fallbackAttempted, hc]
    | noBody => simp [Ts.fallbackAttempted, hc]
    | body items =>
      simp only [Ts.primaryRecords] at hzero
      have hit : items = [] := (normItems_nil_iff rngR 0 items).mp hzero
      subst hit
      simp [Ts.fallbackAttempted, hc]

/-- C4, witness: a parsed payload without a body array is a zero-record
primary outcome and the fallback is attempted for the known area. -/
theorem C4_fallback_when_zero_witness :
    Ts.fallbackAttempted "용산구" (Ts.PrimaryResp.payload .noBody) = true :=
  C4_fallback_when_zero "용산구" (Ts.PrimaryResp.payload .noBody)
    (by decide) (by decide) rfl

/-- C5: formatPrice renders deposit/rent when both components are present,
the deposit alone when only it is present, and the empty string when neither
component nor a combined price string is supplied. -/
theorem C5_formatPrice_cases (it : P3.Item) :
    (it.hanPrc ≠ "" → it.rentPrc ≠ 0 →
      P3.formatPrice it = it.hanPrc ++ "/" ++ toString it.rentPrc) ∧
    (it.hanPrc ≠ "" → it.rentPrc = 0 → P3.formatPrice it = it.hanPrc) ∧
    (it.hanPrc = "" → it.rentPrc = 0 → it.prcInfo = "" → P3.formatPrice it = "") := by
  refine ⟨fun h1 h2 => ?_, fun h1 h2 => ?_, fun h1 h2 h3 => ?_⟩
  · simp [P3.formatPrice, h1, h2]
  · simp [P3.formatPrice, h1, h2, jsOr]
  · simp [P3.formatPrice, h1, h2, h3, jsOr]

/-- C5, witness: deposit 1억 with rent 50 renders as 1억/50, the deposit
alone as 1억, and the empty record as the empty string. -/
theorem C5_formatPrice_cases_witness :
    P3.formatPrice exPriceBoth = "1억/50" ∧ P3.formatPrice exPriceDep = "1억" ∧
    P3.formatPrice exPriceNone = "" := by
  refine ⟨?_, ?_, ?_⟩
  · rw [(C5_formatPrice_cases exPriceBoth).1 (by decide) (by decide)]
    decide
  · rw [(C5_formatPrice_cases exPriceDep).2.1 (by decide) rfl]
    decide
  · rw [(C5_formatPrice_cases exPriceNone).2.2 rfl rfl rfl]

/-- C6: an unknown area name contributes nothing and does not abort the
search: prepending an unknown name to the area list leaves the result of
search unchanged, so valid areas contribute exactly what they contribute
when searched alone. -/
theorem C6_unknown_area_skipped (rng : Nat → String) (opts : Ts.SearchOptions)
    (up : String → Ts.AreaData) (u : String) (hu : Ts.AREA_CODES u = none) :
    Ts.search rng { opts with areas := u :: opts.areas } up = Ts.search rng opts up := by
  have hloop : Ts.searchLoop rng up opts.limit (u :: opts.areas) [] 0 =
      Ts.searchLoop rng up opts.limit opts.areas [] 0 := by
    simp [Ts.searchLoop, Ts.searchAreaMobile, hu, breakNilFalse]
    intro h1 h2
    exfalso
    cases hl : opts.limit with
    | none => rw [hl] at h1; exact Bool.false_ne_true h1
    | some n =>
      rw [hl] at h1 h2
      simp [truthyN] at h1
      simp at h2
      exact h1 h2
  unfold Ts.search Ts.accum
  rw [hloop]

/-- C6, witness: an unknown name in front of the valid area of the
duplicate-id upstream leaves the search result unchanged. -/
theorem C6_unknown_area_skipped_witness :
    Ts.search rngR { areas := "UnknownX" :: exNoFloorOpts.areas } exNoFloorUp =
      Ts.search rngR exNoFloorOpts exNoFloorUp :=
  C6_unknown_area_skipped rngR exNoFloorOpts exNoFloorUp "UnknownX" (by decide)

/-- C7, counterexample: a raw record without a listing name normalizes to the
placeholder title 매물, not to the empty string. -/
theorem C7_placeholder_counterexample :
    (Ts.toProperty "r" exBlank).title = "매물" ∧ (Ts.toProperty "r" exBlank).title ≠ "" := by
  exact ⟨by decide, by decide⟩

/-- C7, amended: every string field the source could not supply is left empty
in the normalized Property except the title, which is replaced by the
placeholder 매물. -/
theorem C7_empty_fields (rid : String) (item : Ts.RawItem) :
    (item.atclNm = "" → (Ts.toProperty rid item).title = "매물") ∧
    (item.spc2 = "" → (Ts.toProperty rid item).size = "") ∧
    (item.flrInfo = "" → (Ts.toProperty rid item).floor = "") ∧
    (item.atclFetrDesc = "" → (Ts.toProperty rid item).address = "") ∧
    (item.prcInfo = "" → item.hanPrc = "" → (Ts.toProperty rid item).price = "") ∧
    (item.rletTpNm = "" → item.tradTpNm = "" →
      (Ts.toProperty rid item).description = "") := by
  refine ⟨fun h => ?_, fun h => ?_, fun h => ?_, fun h => ?_,
    fun h1 h2 => ?_, fun h1 h2 => ?_⟩
  · simp [Ts.toProperty, jsOr, h]
  · simp [Ts.toProperty, h]
  · simp [Ts.toProperty, jsOr, h]
  · simp [Ts.toProperty, jsOr, h]
  · simp [Ts.toProperty, jsOr, Ts.formatPrice, h1, h2]
  · simp [Ts.toProperty, joinSep, h1, h2]
    decide

/-- C7, witness: the all-absent raw record normalizes to empty size, floor,
address, price and description, and to the placeholder title. -/
theorem C7_empty_fields_witness :
    (Ts.toProperty "r" exBlank).size = "" ∧ (Ts.toProperty "r" exBlank).floor = "" ∧
    (Ts.toProperty "r" exBlank).address = "" ∧ (Ts.toProperty "r" exBlank).price = "" ∧
    (Ts.toProperty "r" exBlank).description = "" ∧
    (Ts.toProperty "r" exBlank).title = "매물" := by
  have h := C7_empty_fields "r" exBlank
  exact ⟨h.2.1 rfl, h.2.2.1 rfl, h.2.2.2.1 rfl, h.2.2.2.2.1 rfl rfl,
    h.2.2.2.2.2 rfl rfl, h.1 rfl⟩

/-- C8, counterexample: a record with an absent size does not pass the size
filter when minSize is 26: the absent spc2 is replaced by the literal 0,
which parses successfully and falls below the bound. -/
theorem C8_absent_size_counterexample :
    P3.sizeAccept (some (DecNum.ofN 26)) none "" = false ∧
    parseFloatJs (jsOr "" "0") = some (DecNum.ofN 0) := by
  exact ⟨by decide, by decide⟩

/-- C8, amended: the size filter rejects only on a successful numeric parse
strictly outside a truthy bound, where an absent spc2 is first replaced by
the literal 0: an unparseable size (NaN) always passes, a parsed value inside
the bounds passes, and an absent size is rejected whenever a positive minSize
is set. -/
theorem C8_size_filter (minSize maxSize : Option DecNum) (spc2 : String) :
    (parseFloatJs (jsOr spc2 "0") = none →
      P3.sizeAccept minSize maxSize spc2 = true) ∧
    (∀ v, parseFloatJs (jsOr spc2 "0") = some v →
      v.blt (minSize.getD (DecNum.ofN 0)) = false →
      (maxSize.getD (DecNum.ofN 0)).blt v = false →
      P3.sizeAccept minSize maxSize spc2 = true) ∧
    (spc2 = "" → ∀ m : DecNum, minSize = some m → (0 : Int) < m.num →
      P3.sizeAccept minSize maxSize spc2 = false) := by
  refine ⟨fun hnone => ?_, fun v hsome hlo hhi => ?_, fun hsp m hm h0 => ?_⟩
  · simp [P3.sizeAccept, hnone, nanLt, nanGt]
  · simp [P3.sizeAccept, hsome, nanLt, nanGt, hlo, hhi]
  · subst hsp
    rw [hm]
    have h1 : parseFloatJs (jsOr "" "0") = some (DecNum.ofN 0) := by decide
    simp [P3.sizeAccept, h1, nanLt, truthyD, DecNum.blt, DecNum.ofN, h0, ne_of_gt h0]

/-- C8, witness: with bounds 26 and 43, the unparseable size abc passes, the
parsed size 26.44 inside the bounds passes, and the absent size is rejected. -/
theorem C8_size_filter_witness :
    P3.sizeAccept (some (DecNum.ofN 26)) (some (DecNum.ofN 43)) "abc" = true ∧
    P3.sizeAccept (some (DecNum.ofN 26)) (some (DecNum.ofN 43)) "26.44" = true ∧
    P3.sizeAccept (some (DecNum.ofN 26)) (some (DecNum.ofN 43)) "" = false := by
  refine ⟨?_, ?_, ?_⟩
  · exact (C8_size_filter (some (DecNum.ofN 26)) (some (DecNum.ofN 43)) "abc").1
      (by decide)
  · exact (C8_size_filter (some (DecNum.ofN 26)) (some (DecNum.ofN 43)) "26.44").2.1
      ⟨2644, 2⟩ (by decide) (by decide) (by decide)
  · exact (C8_size_filter (some (DecNum.ofN 26)) (some (DecNum.ofN 43)) "").2.2
      rfl (DecNum.ofN 26) rfl (by decide)

/-- The item loop is independent of the random supply when every item carries
an upstream id. -/
theorem articlesGo_rng_irrel (rng1 rng2 : Nat → String) (opts : P3.SearchOptions) :
    ∀ (items : List P3.Item), (∀ it ∈ items, it.atclNo ≠ "") →
    ∀ k, P3.articlesGo rng1 opts k items = P3.articlesGo rng2 opts k items := by
  intro items
  induction items with
  | nil => intro _ _; rfl
  | cons it rest ih =>
    intro h k
    have hid : it.atclNo ≠ "" := h it (List.mem_cons_self it rest)
    have hrest := ih fun x hx => h x (List.mem_cons_of_mem it hx)
    simp only [P3.articlesGo, if_neg hid, hrest]

/-- The per-cluster fetch is independent of the random supply when every body
item carries an upstream id. -/
theorem fetchArticles_rng_irrel (rng1 rng2 : Nat → String) (opts : P3.SearchOptions)
    (k : Nat) (body : Option (List P3.Item))
    (h : ∀ items, body = some items → ∀ it ∈ items, it.atclNo ≠ "") :
    P3.fetchArticles rng1 opts k body = P3.fetchArticles rng2 opts k body := by
  cases body with
  | none => rfl
  | some items =>
    simp only [P3.fetchArticles]
    exact articlesGo_rng_irrel rng1 rng2 opts items (h items rfl) k

/-- The cluster loop is independent of the random supply when every upstream
body item carries an upstream id. -/
theorem clusterLoop_rng_irrel (rng1 rng2 : Nat → String) (opts : P3.SearchOptions)
    (up : P3.Upstream)
    (hids : ∀ lgeo items, up.body lgeo = some items → ∀ it ∈ items, it.atclNo ≠ "") :
    ∀ (cs : List P3.Cluster) (acc : List Property) (k : Nat),
      P3.clusterLoop rng1 opts up cs acc k = P3.clusterLoop rng2 opts up cs acc k := by
  intro cs
  induction cs with
  | nil => intro _ _; rfl
  | cons c rest ih =>
    intro acc k
    have hr : P3.fetchArticles rng1 opts k (up.body c.lgeo) =
        P3.fetchArticles rng2 opts k (up.body c.lgeo) :=
      fetchArticles_rng_irrel rng1 rng2 opts k (up.body c.lgeo) (hids c.lgeo)
    simp only [P3.clusterLoop, hr, ih]

/-- C9, counterexample: over the upstream whose single record lacks an
upstream id, two runs of search that draw different random tokens return
different result sets (the ids differ). -/
theorem C9_random_id_counterexample :
    P3.search rngR {} exNoIdUp ≠ P3.search rngS {} exNoIdUp := by
  decide

/-- C9, amended: against a fixed upstream in which every body record carries
an upstream id, two runs of search with identical options and different
random supplies return the same result sequence; a record lacking the id
receives a locally generated token, which differs between runs. -/
theorem C9_two_run_deterministic (rng1 rng2 : Nat → String) (opts : P3.SearchOptions)
    (up : P3.Upstream)
    (hids : ∀ lgeo items, up.body lgeo = some items → ∀ it ∈ items, it.atclNo ≠ "") :
    P3.search rng1 opts up = P3.search rng2 opts up := by
  unfold P3.search P3.accum
  rw [clusterLoop_rng_irrel rng1 rng2 opts up hids]

/-- C9, witness: over the upstream whose single record carries the id X, the
two runs with different random supplies agree. -/
theorem C9_two_run_deterministic_witness :
    P3.search rngR {} exWithIdUp = P3.search rngS {} exWithIdUp := by
  refine C9_two_run_deterministic rngR rngS {} exWithIdUp ?_
  intro lgeo items h it hit
  by_cases hl : lgeo = "g"
  · subst hl
    simp [exWithIdUp] at h
    subst h
    simp at hit
    subst hit
    decide
  · simp [exWithIdUp, hl] at h

/-- The area loop with limit 0 behaves as with no limit: the break test never
fires in either. -/
theorem searchLoop_limit_zero (rng : Nat → String) (up : String → Ts.AreaData) :
    ∀ (as : List String) (acc : List Property) (k : Nat),
      Ts.searchLoop rng up (some 0) as acc k = Ts.searchLoop rng up none as acc k := by
  intro as
  induction as with
  | nil => intro _ _; rfl
  | cons a rest ih =>
    intro acc k
    simp only [Ts.searchLoop, truthyN]
    simp [ih]

/-- The floor filter with minFloor 0 equals the floor filter with no
minFloor: both apply the default bound 2. -/
theorem floorPass_minFloor_zero (p : Property) :
    floorPass (some 0) p = floorPass none p := rfl

/-- C10: numeric options set to 0 behave as absent: with limit 0 the early
exit never fires and search equals the no-limit search capped at the default
20, and with minFloor 0 search equals the no-minFloor search, applying the
default floor bound 2 rather than accepting all floors. -/
theorem C10_zero_option_defaults (rng : Nat → String) (opts : Ts.SearchOptions)
    (up : String → Ts.AreaData) :
    Ts.search rng { opts with limit := some 0 } up =
      Ts.search rng { opts with limit := none } up ∧
    (Ts.search rng { opts with limit := some 0 } up).length ≤ 20 ∧
    Ts.search rng { opts with minFloor := some 0 } up =
      Ts.search rng { opts with minFloor := none } up := by
  refine ⟨?_, ?_, ?_⟩
  · show ((Ts.searchLoop rng up (some 0) opts.areas [] 0).filter
        (floorPass opts.minFloor)).take (orDefaultN (some 0) 20) =
      ((Ts.searchLoop rng up none opts.areas [] 0).filter
        (floorPass opts.minFloor)).take (orDefaultN none 20)
    rw [searchLoop_limit_zero]
    rfl
  · show (((Ts.searchLoop rng up (some 0) opts.areas [] 0).filter
        (floorPass opts.minFloor)).take (orDefaultN (some 0) 20)).length ≤ 20
    exact List.length_take_le 20 _
  · show ((Ts.searchLoop rng up opts.limit opts.areas [] 0).filter
        (floorPass (some 0))).take (orDefaultN opts.limit 20) =
      ((Ts.searchLoop rng up opts.limit opts.areas [] 0).filter
        (floorPass none)).take (orDefaultN opts.limit 20)
    rw [show floorPass (some 0) = floorPass none from funext floorPass_minFloor_zero]

end NaverBot
